import Mathlib

/-!
Shallow embedding of `src/server.js` of the zeabur-monitor repository.

The server keeps three persisted JSON documents (session table, account
catalog, admin-password record) plus the pure arithmetic of the usage
aggregator.  JavaScript objects used as string-keyed maps are embedded as
association lists mutated by `jsSet` (JS `obj[k] = v` semantics: replace
existing binding in place, otherwise append).  JS numbers that carry
currency amounts are embedded as exact rationals (ℚ); the claims are about
the arithmetic rules, not the binary float representation.  Network I/O
(`https.request` to the Zeabur GraphQL API) is embedded as explicit oracle
parameters returning `Except String _` (a rejected promise is `.error msg`).
File-system state is passed explicitly: each durable document is an
`Option` (missing file = `none`), and `fs.writeFileSync` outcomes are
explicit `Except String Unit` / `Bool` parameters.
-/

namespace ZeaburMonitor

/-- JS `obj[k] = v` on a string-keyed object represented as an association
list: overwrite an existing binding in place, otherwise append at the end
(JS property insertion order). -/
def jsSet {α : Type} : List (String × α) → String → α → List (String × α)
  | [], k, v => [(k, v)]
  | (k', v') :: rest, k, v =>
    if k' = k then (k, v) :: rest else (k', v') :: jsSet rest k v

/-- JS `Object.assign(target, source)`: copy every binding of `source` into
`target` in order, overwriting existing keys (server.js line 57). -/
def objAssign {α : Type} (target source : List (String × α)) : List (String × α) :=
  source.foldl (fun t kv => jsSet t kv.1 kv.2) target

/-- One session record: `{ password, createdAt, lastAccessedAt }`
(server.js lines 91-95). -/
structure SessionRec where
  password : String
  createdAt : String
  lastAccessedAt : String
deriving DecidableEq, Repr

/-- The in-memory session table `sessions` (server.js line 49), a plain
string-keyed object. -/
abbrev SessionStore := List (String × SessionRec)

/-- `loadSessions()` (server.js lines 52-63): if the sessions file exists and
parses (`file = some loaded`), merge with `Object.assign(sessions, loaded)`;
a missing file or a read/parse error (`none`) leaves the table unchanged. -/
def loadSessions (sessions : SessionStore) (file : Option SessionStore) : SessionStore :=
  match file with
  | some loaded => objAssign sessions loaded
  | none => sessions

/-- `saveSessions()` (server.js lines 66-72): write the ENTIRE table to the
sessions file.  `writeResult` is the outcome of `fs.writeFileSync`; on
failure the exception is caught and only logged, so the durable document
keeps its previous content and no error escapes. -/
def saveSessions (sessions : SessionStore) (writeResult : Except String Unit)
    (durable : Option SessionStore) : Option SessionStore :=
  match writeResult with
  | .ok _ => some sessions
  | .error _ => durable

/-- `createSession(password)` (server.js lines 89-99): insert the fresh
record under the generated id, call `saveSessions()`, and return the id.
The returned value is an `Except` so that a thrown exception would be
visible as `.error`; since `saveSessions` swallows its exception, the
function always returns `.ok sid`.  Result: (returned value, new in-memory
table, new durable document). -/
def createSession (sid password now : String) (sessions : SessionStore)
    (writeResult : Except String Unit) (durable : Option SessionStore) :
    Except String String × SessionStore × Option SessionStore :=
  let sessions' := jsSet sessions sid { password := password, createdAt := now, lastAccessedAt := now }
  (Except.ok sid, sessions', saveSessions sessions' writeResult durable)

/-- JS truthiness of a possibly-missing string (`undefined`/`null` and `""`
are falsy). -/
def jsTruthy : Option String → Bool
  | some s => !s.isEmpty
  | none => false

/-- `loadAdminPassword()` (server.js lines 234-257): the environment variable
`ADMIN_PASSWORD` wins when truthy; otherwise the `password` field of the
password file is returned (`pwfile = none`: file missing or unreadable;
`some field`: file present with `field` the parsed `password` property,
`none` when absent). -/
def loadAdminPassword (env : Option String) (pwfile : Option (Option String)) : Option String :=
  if jsTruthy env then env
  else
    match pwfile with
    | some field => field
    | none => none

/-- `isPasswordSavedToFile()` (server.js lines 260-275): `!!parsed.password`
when the file exists and parses, false otherwise. -/
def isPasswordSavedToFile (pwfile : Option (Option String)) : Bool :=
  match pwfile with
  | some field => jsTruthy field
  | none => false

/-- `saveAdminPassword(password)` (server.js lines 278-300): write
`{ password }` to the password file; returns the new durable document and
the boolean success flag (`false` when the write throws, in which case the
document keeps its previous content). -/
def saveAdminPassword (password : String) (writeOk : Bool)
    (durable : Option (Option String)) : Option (Option String) × Bool :=
  if writeOk then (some (some password), true) else (durable, false)

/-- An account entry `{ name, token }` of the account catalog. -/
structure Account where
  name : String
  token : String
deriving DecidableEq, Repr

/-- `loadServerAccounts()` (server.js lines 189-206): parse the accounts
file, returning `[]` when it is missing or unreadable. -/
def loadServerAccounts (file : Option (List Account)) : List Account :=
  match file with
  | some accounts => accounts
  | none => []

/-- `saveServerAccounts(accounts)` (server.js lines 209-231): write the whole
list to the accounts file; returns the new durable document and the boolean
success flag. -/
def saveServerAccounts (accounts : List Account) (writeOk : Bool)
    (durable : Option (List Account)) : Option (List Account) × Bool :=
  if writeOk then (some accounts, true) else (durable, false)

/-- The credential-carrying part of an inbound request, as seen by
`requireAuth`: the value of the `sid` cookie if one is sent (already
extracted by `parseCookies`), the raw `Authorization` header, and the
`x-admin-password` header; each is `none` when absent. -/
structure AuthRequest where
  cookieSid : Option String
  authorization : Option String
  xAdminPassword : Option String
deriving DecidableEq, Repr

/-- Outcome of the `requireAuth` middleware: either `next()` (request is
authenticated) or the explicit 401 JSON response
`{ success: false, error: 未认证，请重新登录 }` (server.js line 171) —
the middleware is total and never throws. -/
inductive AuthOutcome where
  | next
  | unauthorized401
deriving DecidableEq, Repr

/-- `getSession(req)` (server.js lines 102-119), decision part: `null` when
no `sid` cookie is sent or the cookie value is falsy (`if (!sid)`),
otherwise the record stored under that id.  (The `lastAccessedAt` refresh
and `saveSessions()` call on a hit do not affect the decision.) -/
def getSession (sessions : SessionStore) (req : AuthRequest) : Option SessionRec :=
  match req.cookieSid with
  | none => none
  | some sid => if sid.isEmpty then none else List.lookup sid sessions

/-- The bearer branch of `requireAuth` (server.js lines 143-152): the
`Authorization` header exists, starts with `"Bearer "`, and the rest of the
header is an id present in the session table. -/
def bearerAuthed (sessions : SessionStore) (req : AuthRequest) : Bool :=
  match req.authorization with
  | some h => h.startsWith "Bearer " && (List.lookup (h.drop 7) sessions).isSome
  | none => false

/-- `requireAuth(req, res, next)` (server.js lines 135-172): cookie session,
then bearer session, then the no-password bootstrap (`if (!savedPassword)`),
then the legacy `x-admin-password` strict-equality check; otherwise the
explicit 401 JSON response. -/
def requireAuth (sessions : SessionStore) (env : Option String)
    (pwfile : Option (Option String)) (req : AuthRequest) : AuthOutcome :=
  if (getSession sessions req).isSome then AuthOutcome.next
  else if bearerAuthed sessions req then AuthOutcome.next
  else
    let savedPassword := loadAdminPassword env pwfile
    if jsTruthy savedPassword = false then AuthOutcome.next
    else if req.xAdminPassword == savedPassword then AuthOutcome.next
    else AuthOutcome.unauthorized401

/-- Claim-side predicate: the `x-admin-password` header equals the configured
admin password (there is a configured — truthy — password and the header
carries exactly it). -/
def headerPasswordMatches (env : Option String) (pwfile : Option (Option String))
    (req : AuthRequest) : Prop :=
  jsTruthy (loadAdminPassword env pwfile) = true ∧
    req.xAdminPassword = loadAdminPassword env pwfile

/-- Claim-side predicate: no admin password is configured at all (neither a
truthy `ADMIN_PASSWORD` environment value nor a truthy password in the
password file). -/
def noPasswordConfigured (env : Option String) (pwfile : Option (Option String)) : Prop :=
  jsTruthy (loadAdminPassword env pwfile) = false

/-- Response of `POST /api/set-password` (server.js lines 769-792). -/
inductive SetPasswordOutcome where
  | badRequest (error : String)
  | ok
  | serverError (error : String)
deriving DecidableEq, Repr

/-- `POST /api/set-password` handler (server.js lines 769-792): reject when
the env password is truthy, when a password is saved in the file, or when
the candidate is falsy or shorter than 6 characters; otherwise save
(`writeOk` = outcome of `saveAdminPassword`). -/
def setPasswordHandler (env : Option String) (pwfile : Option (Option String))
    (candidate : Option String) (writeOk : Bool) : SetPasswordOutcome :=
  if jsTruthy env then .badRequest "密码已通过环境变量设置，无法修改"
  else if isPasswordSavedToFile pwfile then .badRequest "密码已设置，无法重复设置"
  else
    match candidate with
    | none => .badRequest "密码长度至少6位"
    | some p =>
      if p.length < 6 then .badRequest "密码长度至少6位"
      else if writeOk then .ok
      else .serverError "保存密码失败"

/-- One element of `result.data.usages.data` in `fetchUsageData`
(server.js line 498): a per-project row with its per-day usage values. -/
structure UsageEntry where
  id : String
  name : String
  usageOfEntity : List ℚ
deriving DecidableEq, Repr

/-- `project.usageOfEntity.reduce((a, b) => a + b, 0)` (server.js line 505). -/
def projectTotal (e : UsageEntry) : ℚ :=
  e.usageOfEntity.foldl (fun a b => a + b) 0

/-- `projectTotal > 0 ? Math.ceil(projectTotal * 100) / 100 : 0`
(server.js line 507). -/
def displayCost (projectTotal : ℚ) : ℚ :=
  if projectTotal > 0 then ((⌈projectTotal * 100⌉ : ℤ) : ℚ) / 100 else 0

/-- The object resolved by `fetchUsageData` (server.js lines 513-518). -/
structure UsageResult where
  projectCosts : List (String × ℚ)
  totalUsage : ℚ
  freeQuotaRemaining : ℚ
  freeQuotaLimit : ℚ
deriving DecidableEq, Repr

/-- The computation `fetchUsageData` performs on the parsed `usages` array
(server.js lines 498-518): fold over the rows accumulating the
`projectCosts` object (`projectCosts[project.id] = displayCost`) and the
raw `totalUsage` (`totalUsage += projectTotal`), then package with
`freeQuotaRemaining = 5 - totalUsage` and `freeQuotaLimit = 5`.  The
HTTPS transport around it is handled by the caller oracles. -/
def fetchUsageData (usages : List UsageEntry) : UsageResult :=
  let acc := usages.foldl
    (fun (acc : List (String × ℚ) × ℚ) project =>
      let pt := projectTotal project
      (jsSet acc.1 project.id (displayCost pt), acc.2 + pt))
    ([], 0)
  { projectCosts := acc.1
    totalUsage := acc.2
    freeQuotaRemaining := 5 - acc.2
    freeQuotaLimit := 5 }

/-- The normalized `me` object produced by `fetchAccountData`
(server.js line 419): `userId` models the `_id` field (`none` when the
upstream returned no user, as with `user = {}`). -/
structure ZUser where
  userId : Option String
  username : String
  email : String
  credit : ℚ
deriving DecidableEq, Repr

/-- The value `fetchAccountData(token)` resolves to (server.js lines
419-424), restricted to the fields the `/api/temp-accounts` pipeline reads
(`projects` is only forwarded to `fetchUsageData`, which ignores it, and
the `aihub` object is returned verbatim, modeled by its balance). -/
structure FetchedAccount where
  user : ZUser
  serviceCosts : ℚ
  aihubBalance : ℚ
deriving DecidableEq, Repr

/-- One entry of the `accounts` array of the request body. -/
structure AccountInput where
  name : String
  token : String
deriving DecidableEq, Repr

/-- The `data` object of a successful per-account result (server.js lines
569-575): the spread `...user` minus the overridden `credit`, plus the
computed fields. -/
structure ResultData where
  userId : Option String
  username : String
  email : String
  credit : ℤ
  totalUsage : ℚ
  totalCost : ℚ
  freeQuotaLimit : ℚ
deriving DecidableEq, Repr

/-- One element of the array returned by `/api/temp-accounts` (server.js
lines 566-584): a success record or a failure record with the error
message. -/
inductive AccountResult where
  | success (name : String) (data : ResultData) (aihubBalance : ℚ)
  | failure (name : String) (error : String)
deriving DecidableEq, Repr

def AccountResult.isSuccess : AccountResult → Bool
  | .success _ _ _ => true
  | .failure _ _ => false

def exceptOk {ε α : Type} : Except ε α → Bool
  | .ok _ => true
  | .error _ => false

/-- JS `Math.round` on an exact rational: round half toward +∞. -/
def jsRound (q : ℚ) : ℤ := ⌊q + 1 / 2⌋

/-- The default snapshot `{ totalUsage: 0, freeQuotaRemaining: 5,
freeQuotaLimit: 5 }` (server.js line 553); its `projectCosts` field is
absent in the source and unused by this handler. -/
def defaultUsage : UsageResult :=
  { projectCosts := [], totalUsage := 0, freeQuotaRemaining := 5, freeQuotaLimit := 5 }

/-- The usage-snapshot selection of the per-account pipeline (server.js
lines 553-561): start from `defaultUsage`; when `user._id` is truthy, try
the usage query (`fetchU token uid` is the transport+parse oracle returning
the raw `usages` rows) and fall back to the default when it rejects. -/
def usageFor (fetchU : String → String → Except String (List UsageEntry))
    (token : String) (user : ZUser) : UsageResult :=
  match user.userId with
  | some uid =>
    if uid.isEmpty then defaultUsage
    else
      match fetchU token uid with
      | .ok usages => fetchUsageData usages
      | .error _ => defaultUsage
  | none => defaultUsage

/-- The per-account async closure of `POST /api/temp-accounts` (server.js
lines 546-586): `fetchA` is the `fetchAccountData` oracle (`.error msg` =
rejected promise, caught by the catch of the closure).  On success the result
carries `credit` recomputed from the free quota
(`Math.round(freeQuotaRemaining * 100)`, server.js line 564), overriding
the upstream credit, plus `totalUsage`, `totalCost` (= raw `totalUsage`)
and `freeQuotaLimit`. -/
def processAccount (fetchA : String → Except String FetchedAccount)
    (fetchU : String → String → Except String (List UsageEntry))
    (account : AccountInput) : AccountResult :=
  match fetchA account.token with
  | .error e => .failure account.name e
  | .ok fetched =>
    let usageData := usageFor fetchU account.token fetched.user
    let creditInCents := jsRound (usageData.freeQuotaRemaining * 100)
    .success account.name
      { userId := fetched.user.userId
        username := fetched.user.username
        email := fetched.user.email
        credit := creditInCents
        totalUsage := usageData.totalUsage
        totalCost := usageData.totalUsage
        freeQuotaLimit := usageData.freeQuotaLimit }
      fetched.aihubBalance

/-- The batch body of `POST /api/temp-accounts` (server.js line 546):
`Promise.all(accounts.map(...))` — every account is processed by its own
wrapped pipeline and the settled values are collected in input order. -/
def tempAccountsHandler (fetchA : String → Except String FetchedAccount)
    (fetchU : String → String → Except String (List UsageEntry))
    (accounts : List AccountInput) : List AccountResult :=
  accounts.map (processAccount fetchA fetchU)

/-- Replace the upstream `credit` field of a fetched account (used to state
that the pipeline output never depends on it). -/
def overwriteCredit (c : ℚ) (f : FetchedAccount) : FetchedAccount :=
  { f with user := { f.user with credit := c } }

/-- Spec-side formulation of "rounded up to the nearest 0.01 currency
unit": `c` is a whole number of hundredths, at least `raw`, and no smaller
whole number of hundredths is at least `raw`. -/
def isCeilToCent (raw c : ℚ) : Prop :=
  (∃ n : ℤ, c = (n : ℚ) / 100) ∧ raw ≤ c ∧
    ∀ m : ℤ, raw ≤ (m : ℚ) / 100 → c ≤ (m : ℚ) / 100

/-! ## Helper lemmas about the JS-object embedding -/

theorem lookup_jsSet {α : Type} (t : List (String × α)) (k : String) (v : α) (k' : String) :
    List.lookup k' (jsSet t k v) = if k' = k then some v else List.lookup k' t := by
  induction t with
  | nil =>
    simp only [jsSet, List.lookup]
    cases h : k' == k
    · simp_all
    · simp_all
  | cons hd tl ih =>
    obtain ⟨k0, v0⟩ := hd
    simp only [jsSet]
    by_cases h0 : k0 = k
    · subst h0
      simp only [if_pos rfl, List.lookup]
      cases h : k' == k0
      · simp_all
      · simp_all
    · rw [if_neg h0]
      simp only [List.lookup]
      cases h : k' == k0
      · simp_all
      · have hk0 : k' = k0 := by simpa using h
        have hk : ¬(k' = k) := fun hkk => h0 (hk0 ▸ hkk)
        simp [if_neg hk]

theorem lookup_eq_none_of_not_mem {α : Type} (t : List (String × α)) (k : String)
    (h : k ∉ t.map Prod.fst) : List.lookup k t = none := by
  induction t with
  | nil => rfl
  | cons hd tl ih =>
    obtain ⟨k0, v0⟩ := hd
    simp only [List.map, List.mem_cons] at h
    push_neg at h
    simp only [List.lookup]
    cases hbe : k == k0
    · exact ih h.2
    · exact absurd (by simpa using hbe) h.1

theorem lookup_objAssign {α : Type} (src : List (String × α))
    (hnodup : (src.map Prod.fst).Nodup) (t : List (String × α)) (k : String) :
    List.lookup k (objAssign t src) =
      Option.or (List.lookup k src) (List.lookup k t) := by
  induction src generalizing t with
  | nil => simp [objAssign, List.lookup, Option.or]
  | cons hd tl ih =>
    obtain ⟨k0, v0⟩ := hd
    simp only [List.map, List.nodup_cons] at hnodup
    have step : objAssign t ((k0, v0) :: tl) = objAssign (jsSet t k0 v0) tl := rfl
    rw [step, ih hnodup.2]
    by_cases hk : k = k0
    · subst hk
      rw [lookup_eq_none_of_not_mem tl k hnodup.1]
      simp [List.lookup, lookup_jsSet, Option.or]
    · have : (k == k0) = false := by simpa using hk
      simp [List.lookup, this, lookup_jsSet, hk]

theorem jsSet_append {α : Type} (t : List (String × α)) (k : String) (v : α)
    (h : k ∉ t.map Prod.fst) : jsSet t k v = t ++ [(k, v)] := by
  induction t with
  | nil => rfl
  | cons hd tl ih =>
    obtain ⟨k0, v0⟩ := hd
    simp only [List.map, List.mem_cons] at h
    push_neg at h
    have hne : ¬(k0 = k) := fun hh => h.1 hh.symm
    simp only [jsSet, if_neg hne, List.cons_append, List.cons.injEq, true_and]
    exact ih h.2

theorem objAssign_eq_append {α : Type} (src t : List (String × α))
    (hnodup : ((t ++ src).map Prod.fst).Nodup) : objAssign t src = t ++ src := by
  induction src generalizing t with
  | nil => simp [objAssign]
  | cons hd tl ih =>
    obtain ⟨k0, v0⟩ := hd
    have step : objAssign t ((k0, v0) :: tl) = objAssign (jsSet t k0 v0) tl := rfl
    have hnotmem : k0 ∉ t.map Prod.fst := by
      simp only [List.map_append, List.map_cons, List.nodup_append] at hnodup
      intro hmem
      exact hnodup.2.2 hmem (List.mem_cons_self _ _)
    have heq : (t ++ [(k0, v0)]) ++ tl = t ++ (k0, v0) :: tl := by simp
    rw [step, jsSet_append t k0 v0 hnotmem, ih (t ++ [(k0, v0)]) (by rw [heq]; exact hnodup),
      heq]

/-! ## Helper lemmas about the usage aggregation -/

theorem usage_foldl_spec (usages : List UsageEntry) (m : List (String × ℚ)) (t : ℚ) :
    usages.foldl
      (fun (acc : List (String × ℚ) × ℚ) project =>
        let pt := projectTotal project
        (jsSet acc.1 project.id (displayCost pt), acc.2 + pt))
      (m, t) =
      (objAssign m (usages.map fun e => (e.id, displayCost (projectTotal e))),
        t + (usages.map projectTotal).sum) := by
  induction usages generalizing m t with
  | nil => simp [objAssign]
  | cons hd tl ih =>
    simp only [List.foldl_cons, List.map_cons, List.sum_cons]
    rw [ih]
    refine Prod.ext ?_ ?_
    · rfl
    · simp only
      ring

theorem fetchUsageData_projectCosts (usages : List UsageEntry) :
    (fetchUsageData usages).projectCosts =
      objAssign [] (usages.map fun e => (e.id, displayCost (projectTotal e))) := by
  simp [fetchUsageData, usage_foldl_spec]

theorem fetchUsageData_totalUsage (usages : List UsageEntry) :
    (fetchUsageData usages).totalUsage = (usages.map projectTotal).sum := by
  simp [fetchUsageData, usage_foldl_spec]

theorem fetchUsageData_freeQuota (usages : List UsageEntry) :
    (fetchUsageData usages).freeQuotaRemaining = 5 - (fetchUsageData usages).totalUsage := by
  simp [fetchUsageData, usage_foldl_spec]

theorem lookup_map_of_nodup {α β : Type} (l : List α) (f : α → String) (g : α → β)
    (e : α) (he : e ∈ l) (hnodup : (l.map f).Nodup) :
    List.lookup (f e) (l.map fun x => (f x, g x)) = some (g e) := by
  induction l with
  | nil => cases he
  | cons hd tl ih =>
    simp only [List.map_cons, List.nodup_cons] at hnodup
    rcases List.mem_cons.mp he with heq | hmem
    · subst heq
      simp [List.lookup]
    · have hne : f e ≠ f hd := by
        intro hfe
        exact hnodup.1 (hfe ▸ List.mem_map_of_mem f hmem)
      have hbe : (f e == f hd) = false := by simpa using hne
      simp only [List.map_cons, List.lookup, hbe]
      exact ih hmem hnodup.2

theorem displayCost_isCeil (raw : ℚ) (hpos : 0 < raw) : isCeilToCent raw (displayCost raw) := by
  rw [displayCost, if_pos hpos]
  refine ⟨⟨⌈raw * 100⌉, rfl⟩, ?_, ?_⟩
  · rw [le_div_iff₀ (by norm_num : (0 : ℚ) < 100)]
    exact Int.le_ceil (raw * 100)
  · intro m hm
    rw [le_div_iff₀ (by norm_num : (0 : ℚ) < 100)] at hm
    rw [div_le_div_iff₀ (by norm_num : (0 : ℚ) < 100) (by norm_num : (0 : ℚ) < 100)]
    have : (⌈raw * 100⌉ : ℤ) ≤ m := Int.ceil_le.mpr hm
    exact mul_le_mul_of_nonneg_right (by exact_mod_cast this) (by norm_num)

theorem usageFor_freeQuota (fetchU : String → String → Except String (List UsageEntry))
    (token : String) (user : ZUser) :
    (usageFor fetchU token user).freeQuotaRemaining =
      5 - (usageFor fetchU token user).totalUsage := by
  rw [usageFor]
  rcases user.userId with _ | uid
  · simp [defaultUsage]
  · by_cases h : uid.isEmpty
    · simp [h, defaultUsage]
    · simp only [h, Bool.false_eq_true, if_false]
      rcases fetchU token uid with e | usages
      · simp [defaultUsage]
      · exact fetchUsageData_freeQuota usages

theorem displayCost_71 : displayCost (71 / 1000) = 8 / 100 := by
  rw [displayCost, if_pos (by norm_num)]
  have h : (⌈(71 / 1000 : ℚ) * 100⌉ : ℤ) = 8 := by
    rw [show (71 / 1000 : ℚ) * 100 = 71 / 10 by norm_num, Int.ceil_eq_iff]
    norm_num
  rw [h]
  norm_num

theorem displayCost_34 : displayCost (34 / 1000) = 4 / 100 := by
  rw [displayCost, if_pos (by norm_num)]
  have h : (⌈(34 / 1000 : ℚ) * 100⌉ : ℤ) = 4 := by
    rw [show (34 / 1000 : ℚ) * 100 = 34 / 10 by norm_num, Int.ceil_eq_iff]
    norm_num
  rw [h]
  norm_num

theorem jsRound_five_hundred : jsRound (5 * 100) = 500 := by
  rw [jsRound, Int.floor_eq_iff]
  norm_num

/-! ## Claim theorems -/

/-- C1: `requireAuth` lets a request through (calls `next`) iff the `sid`
cookie resolves in the session store, or the `Authorization: Bearer <id>`
header resolves in the same store, or the `x-admin-password` header equals
the configured admin password, or no admin password is configured at all;
when a password is configured and none of the channels match it returns the
explicit 401 JSON response (it is a total function — no crash), and the
fixed evaluation order never changes the boolean outcome, since the outcome
equals the unordered four-way disjunction. -/
theorem requireAuth_iff_credentials (sessions : SessionStore) (env : Option String)
    (pwfile : Option (Option String)) (req : AuthRequest) :
    (requireAuth sessions env pwfile req = AuthOutcome.next ↔
      ((getSession sessions req).isSome = true ∨ bearerAuthed sessions req = true ∨
        headerPasswordMatches env pwfile req ∨ noPasswordConfigured env pwfile)) ∧
    (requireAuth sessions env pwfile req = AuthOutcome.unauthorized401 ↔
      ¬((getSession sessions req).isSome = true ∨ bearerAuthed sessions req = true ∨
        headerPasswordMatches env pwfile req ∨ noPasswordConfigured env pwfile)) := by
  unfold requireAuth headerPasswordMatches noPasswordConfigured
  cases hc : (getSession sessions req).isSome
  · cases hb : bearerAuthed sessions req
    · cases hp : jsTruthy (loadAdminPassword env pwfile)
      · simp [hp]
      · cases hx : req.xAdminPassword == loadAdminPassword env pwfile
        · have hx' : ¬(req.xAdminPassword = loadAdminPassword env pwfile) := by
            simpa using hx
          simp [hp, hx, hx']
        · have hx' : req.xAdminPassword = loadAdminPassword env pwfile := by
            simpa using hx
          simp [hp, hx, hx']
    · simp [hb]
  · simp [hc]

/-- C2: in the result of the usage computation, every project of the report
is mapped (in `projectCosts`) to `displayCost` of the raw sum of its
per-day values; when that raw sum is strictly positive the displayed cost
is the least whole number of hundredths at least the raw sum (rounding up
to the nearest 0.01), and when the raw sum is zero or negative it is 0;
concretely a raw sum of 0.071 displays as 0.08, 0 as 0, and -0.01 as 0. -/
theorem projectCosts_display (usages : List UsageEntry) (e : UsageEntry)
    (he : e ∈ usages) (hnodup : (usages.map UsageEntry.id).Nodup) :
    List.lookup e.id (fetchUsageData usages).projectCosts =
      some (displayCost (projectTotal e)) ∧
    (0 < projectTotal e → isCeilToCent (projectTotal e) (displayCost (projectTotal e))) ∧
    (projectTotal e ≤ 0 → displayCost (projectTotal e) = 0) ∧
    displayCost (71 / 1000) = 8 / 100 ∧ displayCost 0 = 0 ∧ displayCost (-1 / 100) = 0 := by
  refine ⟨?_, fun h => displayCost_isCeil _ h, fun h => ?_, displayCost_71, ?_, ?_⟩
  · rw [fetchUsageData_projectCosts]
    have hkeys :
        (((usages.map fun x => (x.id, displayCost (projectTotal x))).map Prod.fst)).Nodup := by
      simpa [List.map_map, Function.comp_def] using hnodup
    rw [objAssign_eq_append _ [] (by simpa using hkeys), List.nil_append]
    exact lookup_map_of_nodup usages UsageEntry.id (fun x => displayCost (projectTotal x))
      e he hnodup
  · rw [displayCost, if_neg (not_lt.mpr h)]
  · rw [displayCost, if_neg (by norm_num)]
  · rw [displayCost, if_neg (by norm_num)]

/-- Witness for C2 at a concrete report: one project with per-day values
summing to 0.071. -/
theorem projectCosts_display_witness :
    List.lookup "p1"
        (fetchUsageData [{ id := "p1", name := "a", usageOfEntity := [21 / 1000, 5 / 100] }]).projectCosts =
      some (displayCost (projectTotal
        { id := "p1", name := "a", usageOfEntity := [21 / 1000, 5 / 100] })) ∧
    (0 < projectTotal { id := "p1", name := "a", usageOfEntity := [21 / 1000, 5 / 100] } →
      isCeilToCent
        (projectTotal { id := "p1", name := "a", usageOfEntity := [21 / 1000, 5 / 100] })
        (displayCost (projectTotal
          { id := "p1", name := "a", usageOfEntity := [21 / 1000, 5 / 100] }))) ∧
    (projectTotal { id := "p1", name := "a", usageOfEntity := [21 / 1000, 5 / 100] } ≤ 0 →
      displayCost (projectTotal
        { id := "p1", name := "a", usageOfEntity := [21 / 1000, 5 / 100] }) = 0) ∧
    displayCost (71 / 1000) = 8 / 100 ∧ displayCost 0 = 0 ∧ displayCost (-1 / 100) = 0 :=
  projectCosts_display
    [{ id := "p1", name := "a", usageOfEntity := [21 / 1000, 5 / 100] }]
    { id := "p1", name := "a", usageOfEntity := [21 / 1000, 5 / 100] }
    (List.mem_singleton.mpr rfl) (by simp)

/-- C3: `totalUsage` is the sum of the raw, unrounded per-day sums across
all projects of the report, and `freeQuotaRemaining` is exactly
`5 - totalUsage`; concretely raw per-project sums 0.071 and 0.034 give
`totalUsage = 0.105` (not the 0.12 obtained from the rounded display
costs), and a report with raw total 5.5 yields the negative remainder
-0.5 rather than a value clamped to zero. -/
theorem totalUsage_raw_and_quota :
    (∀ usages : List UsageEntry,
      (fetchUsageData usages).totalUsage = (usages.map projectTotal).sum ∧
      (fetchUsageData usages).freeQuotaRemaining = 5 - (fetchUsageData usages).totalUsage) ∧
    (fetchUsageData [{ id := "p1", name := "a", usageOfEntity := [71 / 1000] },
        { id := "p2", name := "b", usageOfEntity := [34 / 1000] }]).totalUsage = 105 / 1000 ∧
    displayCost (71 / 1000) + displayCost (34 / 1000) = 12 / 100 ∧
    (fetchUsageData [{ id := "p1", name := "a", usageOfEntity := [71 / 1000] },
        { id := "p2", name := "b", usageOfEntity := [34 / 1000] }]).totalUsage ≠
      displayCost (71 / 1000) + displayCost (34 / 1000) ∧
    (fetchUsageData [{ id := "p3", name := "c", usageOfEntity := [11 / 2] }]).freeQuotaRemaining =
      -(1 / 2) ∧
    (fetchUsageData [{ id := "p3", name := "c", usageOfEntity := [11 / 2] }]).freeQuotaRemaining
      < 0 := by
  have htot : ∀ usages : List UsageEntry,
      (fetchUsageData usages).totalUsage = (usages.map projectTotal).sum :=
    fetchUsageData_totalUsage
  have hval :
      (fetchUsageData [{ id := "p1", name := "a", usageOfEntity := [71 / 1000] },
        { id := "p2", name := "b", usageOfEntity := [34 / 1000] }]).totalUsage = 105 / 1000 := by
    rw [htot]
    simp [projectTotal]
    norm_num
  have hsum : displayCost (71 / 1000) + displayCost (34 / 1000) = 12 / 100 := by
    rw [displayCost_71, displayCost_34]
    norm_num
  refine ⟨fun usages => ⟨htot usages, fetchUsageData_freeQuota usages⟩, hval, hsum, ?_, ?_, ?_⟩
  · rw [hval, hsum]
    norm_num
  · rw [fetchUsageData_freeQuota, htot]
    simp [projectTotal]
    norm_num
  · rw [fetchUsageData_freeQuota, htot]
    simp [projectTotal]
    norm_num

/-- C4: the batch endpoint maps N input accounts to exactly N results, the
i-th result being the outcome of the per-account pipeline applied to the
i-th input alone (so one account never perturbs the results of its
siblings), and each result is independently a failure record carrying the
upstream error message exactly when the fetch for that account rejects,
and a success record otherwise. -/
theorem tempAccounts_batch (fetchA : String → Except String FetchedAccount)
    (fetchU : String → String → Except String (List UsageEntry))
    (accounts : List AccountInput) :
    (tempAccountsHandler fetchA fetchU accounts).length = accounts.length ∧
    (∀ i : ℕ, (tempAccountsHandler fetchA fetchU accounts)[i]? =
      (accounts[i]?).map (processAccount fetchA fetchU)) ∧
    (∀ a : AccountInput, ∀ e : String,
      processAccount fetchA fetchU a = AccountResult.failure a.name e ↔
        fetchA a.token = Except.error e) ∧
    (∀ a : AccountInput,
      (processAccount fetchA fetchU a).isSuccess = exceptOk (fetchA a.token)) := by
  refine ⟨List.length_map _ _, fun i => ?_, fun a e => ?_, fun a => ?_⟩
  · simp [tempAccountsHandler, List.getElem?_map]
  · cases h : fetchA a.token with
    | error msg => simp [processAccount, h]
    | ok fetched => simp [processAccount, h]
  · cases h : fetchA a.token with
    | error msg => simp [processAccount, h, AccountResult.isSuccess, exceptOk]
    | ok fetched => simp [processAccount, h, AccountResult.isSuccess, exceptOk]

/-- C5, counterexample to the claim as stated: with a failing durable write
(`ENOSPC`), `createSession` still returns the newly generated id through
the normal (non-error) path while the durable store was not updated — the
persistence failure is not surfaced to the caller. -/
theorem createSession_counterexample :
    (createSession "deadbeef" "pw" "t0" [] (Except.error "ENOSPC") none).1 =
      Except.ok "deadbeef" ∧
    (createSession "deadbeef" "pw" "t0" [] (Except.error "ENOSPC") none).2.2 = none :=
  ⟨rfl, rfl⟩

/-- C5, amended: `createSession` inserts the record and synchronously
persists the entire session table before returning; on a successful write
the durable document becomes the whole new table, while on a write failure
the error is caught and logged, the durable document keeps its previous
content, and `createSession` still returns `.ok` with the new id — the
failure is never surfaced. -/
theorem createSession_spec (sid password now : String) (sessions : SessionStore)
    (writeResult : Except String Unit) (durable : Option SessionStore) :
    createSession sid password now sessions writeResult durable =
      (Except.ok sid,
        jsSet sessions sid { password := password, createdAt := now, lastAccessedAt := now },
        match writeResult with
        | .ok _ =>
          some (jsSet sessions sid
            { password := password, createdAt := now, lastAccessedAt := now })
        | .error _ => durable) := by
  cases writeResult <;> rfl

/-- C6, counterexample to the claim as stated: a session id already present
in the in-memory map is NOT left unchanged by the startup load —
`Object.assign` overwrites it with the persisted record. -/
theorem loadSessions_counterexample :
    List.lookup "s"
        (loadSessions [("s", { password := "p1", createdAt := "1", lastAccessedAt := "1" })]
          (some [("s", { password := "p2", createdAt := "2", lastAccessedAt := "2" })])) =
      some { password := "p2", createdAt := "2", lastAccessedAt := "2" } ∧
    ({ password := "p2", createdAt := "2", lastAccessedAt := "2" } : SessionRec) ≠
      { password := "p1", createdAt := "1", lastAccessedAt := "1" } := by
  refine ⟨rfl, ?_⟩
  decide

/-- C6, amended: the startup load merges the persisted records into the
in-memory map with the persisted side winning — every id present in the
persisted document maps to its persisted record afterwards (overwriting
any in-memory record under the same id), ids absent from the document keep
their in-memory record, and a missing or unparsable file leaves the map
untouched. -/
theorem loadSessions_merge_spec (sessions loaded : SessionStore)
    (hnodup : (loaded.map Prod.fst).Nodup) (k : String) :
    List.lookup k (loadSessions sessions (some loaded)) =
      Option.or (List.lookup k loaded) (List.lookup k sessions) ∧
    loadSessions sessions none = sessions :=
  ⟨lookup_objAssign loaded hnodup sessions k, rfl⟩

/-- Witness for the amended C6 at a concrete store and persisted document. -/
theorem loadSessions_merge_spec_witness :
    List.lookup "a"
        (loadSessions [("a", { password := "p", createdAt := "1", lastAccessedAt := "1" })]
          (some [("a", { password := "q", createdAt := "2", lastAccessedAt := "2" }),
            ("b", { password := "r", createdAt := "3", lastAccessedAt := "3" })])) =
      Option.or
        (List.lookup "a" [("a", { password := "q", createdAt := "2", lastAccessedAt := "2" }),
          ("b", { password := "r", createdAt := "3", lastAccessedAt := "3" })])
        (List.lookup "a" [("a", { password := "p", createdAt := "1", lastAccessedAt := "1" })]) ∧
    loadSessions [("a", { password := "p", createdAt := "1", lastAccessedAt := "1" })] none =
      [("a", { password := "p", createdAt := "1", lastAccessedAt := "1" })] :=
  loadSessions_merge_spec
    [("a", { password := "p", createdAt := "1", lastAccessedAt := "1" })]
    [("a", { password := "q", createdAt := "2", lastAccessedAt := "2" }),
      ("b", { password := "r", createdAt := "3", lastAccessedAt := "3" })]
    (by decide) "a"

/-- C7, counterexample to the claim as stated: with the `ADMIN_PASSWORD`
environment variable present but EMPTY (`some ""`), no file password and a
6-character candidate, `set-password` succeeds instead of rejecting with
400 — the code tests truthiness, not presence. -/
theorem setPassword_counterexample :
    setPasswordHandler (some "") none (some "abcdef") true = SetPasswordOutcome.ok ∧
    (some "" : Option String) ≠ (none : Option String) := by
  refine ⟨rfl, ?_⟩
  decide

/-- C7, amended: `set-password` rejects with 400 whenever `ADMIN_PASSWORD`
is present with a NON-EMPTY value, regardless of the file state; it also
rejects with 400 when a (truthy) password is already saved in the file, or
when the candidate is missing or shorter than 6 characters; it succeeds
exactly when no password is configured through either channel, the
candidate has at least 6 characters, and the durable write succeeds. -/
theorem setPassword_spec (env : Option String) (pwfile : Option (Option String))
    (candidate : Option String) (writeOk : Bool) :
    (setPasswordHandler env pwfile candidate writeOk = SetPasswordOutcome.ok ↔
      (jsTruthy env = false ∧ isPasswordSavedToFile pwfile = false ∧
        (∃ p, candidate = some p ∧ 6 ≤ p.length) ∧ writeOk = true)) ∧
    (jsTruthy env = true →
      setPasswordHandler env pwfile candidate writeOk =
        SetPasswordOutcome.badRequest "密码已通过环境变量设置，无法修改") ∧
    (jsTruthy env = false → isPasswordSavedToFile pwfile = true →
      setPasswordHandler env pwfile candidate writeOk =
        SetPasswordOutcome.badRequest "密码已设置，无法重复设置") ∧
    (jsTruthy env = false → isPasswordSavedToFile pwfile = false →
      (∀ p, candidate = some p → p.length < 6) →
      setPasswordHandler env pwfile candidate writeOk =
        SetPasswordOutcome.badRequest "密码长度至少6位") := by
  unfold setPasswordHandler
  cases he : jsTruthy env
  · cases hf : isPasswordSavedToFile pwfile
    · cases candidate with
      | none => simp
      | some p =>
        by_cases hl : p.length < 6
        · simp [hl, Nat.not_le.mpr hl]
        · cases writeOk
          · simp [hl, Nat.not_lt.mp hl]
          · simp [hl, Nat.not_lt.mp hl]
    · simp
  · simp

/-- Witness for the amended C7: no password configured anywhere and a
6-character candidate with a successful write. -/
theorem setPassword_spec_witness :
    (setPasswordHandler none none (some "abcdef") true = SetPasswordOutcome.ok ↔
      (jsTruthy none = false ∧ isPasswordSavedToFile none = false ∧
        (∃ p, (some "abcdef" : Option String) = some p ∧ 6 ≤ p.length) ∧ true = true)) ∧
    (jsTruthy none = true →
      setPasswordHandler none none (some "abcdef") true =
        SetPasswordOutcome.badRequest "密码已通过环境变量设置，无法修改") ∧
    (jsTruthy none = false → isPasswordSavedToFile none = true →
      setPasswordHandler none none (some "abcdef") true =
        SetPasswordOutcome.badRequest "密码已设置，无法重复设置") ∧
    (jsTruthy none = false → isPasswordSavedToFile none = false →
      (∀ p, (some "abcdef" : Option String) = some p → p.length < 6) →
      setPasswordHandler none none (some "abcdef") true =
        SetPasswordOutcome.badRequest "密码长度至少6位") :=
  setPassword_spec none none (some "abcdef") true

/-- C8: when the identity lookup of an account succeeds (with a truthy user
id) but the subsequent usage-by-day query rejects, the pipeline proceeds
with the all-zero usage snapshot (`totalUsage = 0`, quota untouched) and
still produces a success record for that account. -/
theorem usage_failure_fallback (fetchA : String → Except String FetchedAccount)
    (fetchU : String → String → Except String (List UsageEntry))
    (a : AccountInput) (fetched : FetchedAccount) (uid e : String)
    (hok : fetchA a.token = Except.ok fetched)
    (hid : fetched.user.userId = some uid)
    (hne : uid.isEmpty = false)
    (hfail : fetchU a.token uid = Except.error e) :
    processAccount fetchA fetchU a =
      AccountResult.success a.name
        { userId := fetched.user.userId
          username := fetched.user.username
          email := fetched.user.email
          credit := 500
          totalUsage := 0
          totalCost := 0
          freeQuotaLimit := 5 }
        fetched.aihubBalance := by
  have hu : usageFor fetchU a.token fetched.user = defaultUsage := by
    rw [usageFor, hid]
    simp [hne, hfail]
  have hcredit : jsRound (defaultUsage.freeQuotaRemaining * 100) = 500 := by
    show jsRound (5 * 100) = 500
    exact jsRound_five_hundred
  simp only [processAccount, hok, hu, hcredit]
  rfl

/-- Witness for C8: a concrete account whose identity query succeeds and
whose usage query rejects. -/
theorem usage_failure_fallback_witness :
    processAccount
        (fun _ => Except.ok
          { user := { userId := some "u", username := "n", email := "m", credit := 0 },
            serviceCosts := 0, aihubBalance := 7 })
        (fun _ _ => Except.error "usage down")
        { name := "acct", token := "tok" } =
      AccountResult.success "acct"
        { userId := some "u", username := "n", email := "m", credit := 500,
          totalUsage := 0, totalCost := 0, freeQuotaLimit := 5 }
        7 :=
  usage_failure_fallback
    (fun _ => Except.ok
      { user := { userId := some "u", username := "n", email := "m", credit := 0 },
        serviceCosts := 0, aihubBalance := 7 })
    (fun _ _ => Except.error "usage down")
    { name := "acct", token := "tok" }
    { user := { userId := some "u", username := "n", email := "m", credit := 0 },
      serviceCosts := 0, aihubBalance := 7 }
    "u" "usage down" rfl rfl rfl rfl

/-- C9: saving each of the three stores to its durable JSON document and
loading it back yields exactly the saved logical content — the session
table reloaded at startup into an empty in-memory map equals the saved
table, the account catalog reloads verbatim, and the password file reloads
as the saved password (with no environment override). -/
theorem persistence_round_trip (s : SessionStore) (hnodup : (s.map Prod.fst).Nodup)
    (accs : List Account) (p : String) (d1 : Option SessionStore)
    (d2 : Option (List Account)) (d3 : Option (Option String)) :
    loadSessions [] (saveSessions s (Except.ok ()) d1) = s ∧
    loadServerAccounts (saveServerAccounts accs true d2).1 = accs ∧
    loadAdminPassword none (saveAdminPassword p true d3).1 = some p := by
  refine ⟨?_, rfl, rfl⟩
  show objAssign [] s = s
  rw [objAssign_eq_append s [] (by simpa using hnodup), List.nil_append]

/-- Witness for C9 at concrete store contents. -/
theorem persistence_round_trip_witness :
    loadSessions []
        (saveSessions [("a", { password := "p", createdAt := "1", lastAccessedAt := "1" })]
          (Except.ok ()) none) =
      [("a", { password := "p", createdAt := "1", lastAccessedAt := "1" })] ∧
    loadServerAccounts
        (saveServerAccounts [{ name := "n", token := "t" }] true none).1 =
      [{ name := "n", token := "t" }] ∧
    loadAdminPassword none (saveAdminPassword "secret" true none).1 = some "secret" :=
  persistence_round_trip
    [("a", { password := "p", createdAt := "1", lastAccessedAt := "1" })]
    (by decide) [{ name := "n", token := "t" }] "secret" none none none

/-- C10: every successful per-account result of the batch endpoint carries
`credit = Math.round(freeQuotaRemaining * 100) = Math.round((5 - totalUsage) * 100)`
cents computed from the usage snapshot; the credit returned by the
upstream identity query is discarded (changing it changes nothing in the
result), and when the usage query failed the credit is 500. -/
theorem credit_override (fetchA : String → Except String FetchedAccount)
    (fetchU : String → String → Except String (List UsageEntry))
    (a : AccountInput) (fetched : FetchedAccount)
    (hok : fetchA a.token = Except.ok fetched) :
    (∃ d bal, processAccount fetchA fetchU a = AccountResult.success a.name d bal ∧
      d.credit = jsRound ((5 - d.totalUsage) * 100) ∧
      d.totalUsage = (usageFor fetchU a.token fetched.user).totalUsage) ∧
    (∀ c : ℚ, processAccount (fun tok => (fetchA tok).map (overwriteCredit c)) fetchU a =
      processAccount fetchA fetchU a) ∧
    (∀ uid e, fetched.user.userId = some uid → uid.isEmpty = false →
      fetchU a.token uid = Except.error e →
      ∃ d bal, processAccount fetchA fetchU a = AccountResult.success a.name d bal ∧
        d.credit = 500) := by
  have hfq : (usageFor fetchU a.token fetched.user).freeQuotaRemaining =
      5 - (usageFor fetchU a.token fetched.user).totalUsage :=
    usageFor_freeQuota fetchU a.token fetched.user
  refine ⟨?_, fun c => ?_, fun uid e hid hne hfail => ?_⟩
  · refine ⟨ResultData.mk fetched.user.userId fetched.user.username fetched.user.email
        (jsRound ((usageFor fetchU a.token fetched.user).freeQuotaRemaining * 100))
        ((usageFor fetchU a.token fetched.user).totalUsage)
        ((usageFor fetchU a.token fetched.user).totalUsage)
        ((usageFor fetchU a.token fetched.user).freeQuotaLimit),
      fetched.aihubBalance, ?_, ?_, rfl⟩
    · simp only [processAccount, hok]
    · simp only
      rw [hfq]
  · simp only [processAccount, hok]
    rfl
  · have hu : usageFor fetchU a.token fetched.user = defaultUsage := by
      rw [usageFor, hid]
      simp [hne, hfail]
    refine ⟨ResultData.mk fetched.user.userId fetched.user.username fetched.user.email
        (jsRound ((usageFor fetchU a.token fetched.user).freeQuotaRemaining * 100))
        ((usageFor fetchU a.token fetched.user).totalUsage)
        ((usageFor fetchU a.token fetched.user).totalUsage)
        ((usageFor fetchU a.token fetched.user).freeQuotaLimit),
      fetched.aihubBalance, ?_, ?_⟩
    · simp only [processAccount, hok]
    · simp only
      rw [hu]
      show jsRound (5 * 100) = 500
      exact jsRound_five_hundred

/-- Witness for C10: a concrete account with a successful identity query
whose usage query rejects, giving credit 500. -/
theorem credit_override_witness :
    (∃ d bal, processAccount
        (fun _ => Except.ok
          { user := { userId := some "u", username := "n", email := "m", credit := 123 },
            serviceCosts := 0, aihubBalance := 7 })
        (fun _ _ => Except.error "usage down")
        { name := "acct", token := "tok" } = AccountResult.success "acct" d bal ∧
      d.credit = jsRound ((5 - d.totalUsage) * 100) ∧
      d.totalUsage = (usageFor (fun _ _ => Except.error "usage down") "tok"
        { userId := some "u", username := "n", email := "m", credit := 123 }).totalUsage) ∧
    (∀ c : ℚ, processAccount
        (fun tok => ((fun _ => Except.ok
          { user := { userId := some "u", username := "n", email := "m", credit := 123 },
            serviceCosts := 0, aihubBalance := 7 } :
            String → Except String FetchedAccount) tok).map (overwriteCredit c))
        (fun _ _ => Except.error "usage down")
        { name := "acct", token := "tok" } =
      processAccount
        (fun _ => Except.ok
          { user := { userId := some "u", username := "n", email := "m", credit := 123 },
            serviceCosts := 0, aihubBalance := 7 })
        (fun _ _ => Except.error "usage down")
        { name := "acct", token := "tok" }) ∧
    (∀ uid e, ({ user := { userId := some "u", username := "n", email := "m", credit := 123 },
                 serviceCosts := 0, aihubBalance := 7 } : FetchedAccount).user.userId = some uid →
      uid.isEmpty = false →
      (fun _ _ => Except.error "usage down" :
        String → String → Except String (List UsageEntry)) "tok" uid = Except.error e →
      ∃ d bal, processAccount
          (fun _ => Except.ok
            { user := { userId := some "u", username := "n", email := "m", credit := 123 },
              serviceCosts := 0, aihubBalance := 7 })
          (fun _ _ => Except.error "usage down")
          { name := "acct", token := "tok" } = AccountResult.success "acct" d bal ∧
        d.credit = 500) :=
  credit_override
    (fun _ => Except.ok
      { user := { userId := some "u", username := "n", email := "m", credit := 123 },
        serviceCosts := 0, aihubBalance := 7 })
    (fun _ _ => Except.error "usage down")
    { name := "acct", token := "tok" }
    { user := { userId := some "u", username := "n", email := "m", credit := 123 },
      serviceCosts := 0, aihubBalance := 7 }
    rfl

end ZeaburMonitor
